import Mathlib

/-!
Verification of `src/notificacion.py` (a publish/subscribe notification demo:
Observer + Factory Method).

Shallow embedding conventions:
- `print` calls that carry semantic information (delivery lines, warnings,
  subscribe/unsubscribe notices) are modelled as structured `Evento` values;
  the exact console text is presentation detail, but the data interpolated
  into each line (channel, destination, message, user) is kept.
- Python exceptions are modelled with `Except`: `crearNotificacion` returns
  `Except String INotificacion`, the `try/except ValueError` in
  `Usuario.actualizar` becomes a `match` on that result, so `actualizar`
  is a total function (no exception escapes it).
- Python object identity: `Usuario` defines no `__eq__`, so membership tests
  (`observador not in self._observadores`, `list.remove`) compare by object
  identity.  Observers are therefore modelled as references `Nat` (object
  identities), with an environment `env : Nat → Usuario` giving the fields
  stored at each reference.  Two distinct references may carry identical
  field values.
-/

/-- Structured observable events, one constructor per semantically relevant
`print` in the source. -/
inductive Evento where
  /-- A delivery line `[<CANAL>] Enviando a <destino>: '<mensaje>'`
  emitted by `INotificacion.enviar`. -/
  | envio (canal : String) (destino : String) (mensaje : String)
  /-- The warning `Error al notificar a <nombre>: <e>` printed by the
  `except ValueError` branch of `Usuario.actualizar`. -/
  | errorNotificar (nombre : String) (mensajeError : String)
  /-- The `Suscripción exitosa` line of `agregarObservador`. -/
  | suscripcionExitosa (obs : Nat)
  /-- The `Baja exitosa` line of `eliminarObservador`. -/
  | bajaExitosa (obs : Nat)
  /-- The `no estaba suscrito` warning of `eliminarObservador`. -/
  | noSuscrito (obs : Nat)
  /-- The `No hay usuarios suscritos para notificar.` line of
  `notificarObservadores`. -/
  | sinUsuarios
  deriving DecidableEq, Repr

/-- The three concrete `INotificacion` implementations of the source
(`EmailNotificacion`, `SMSNotificacion`, `PushNotificacion`); they are
stateless, so each is one constructor. -/
inductive INotificacion where
  | emailNotificacion
  | smsNotificacion
  | pushNotificacion
  deriving DecidableEq, Repr

/-- The channel tag printed in brackets by each implementation's `enviar`. -/
def INotificacion.canal : INotificacion → String
  | .emailNotificacion => "EMAIL"
  | .smsNotificacion => "SMS"
  | .pushNotificacion => "PUSH"

/-- `enviar(self, mensaje, destino)`: each concrete class prints exactly one
delivery line tagged with its channel. -/
def INotificacion.enviar (n : INotificacion) (mensaje : String)
    (destino : String) : List Evento :=
  [Evento.envio n.canal destino mensaje]

/-- Python's `str.upper()` restricted to the ASCII range of the tags this
program uses: uppercase each character of the string. -/
def mayusculas (s : String) : String := ⟨s.data.map Char.toUpper⟩

/-- `NotificacionFactory.crearNotificacion(tipo)`: uppercases the tag, then
dispatches on `EMAIL` / `SMS` / `PUSH`; any other tag raises
`ValueError(f"Tipo de notificación desconocido: <tipo>")` (modelled as
`Except.error` carrying the message). -/
def crearNotificacion (tipo : String) : Except String INotificacion :=
  let tipo := mayusculas tipo
  if tipo = "EMAIL" then .ok .emailNotificacion
  else if tipo = "SMS" then .ok .smsNotificacion
  else if tipo = "PUSH" then .ok .pushNotificacion
  else .error ("Tipo de notificación desconocido: " ++ tipo)

/-- The field record of class `Usuario`.  The source's `__init__` uppercases
`metodo_notif`; see `Usuario.init`. -/
structure Usuario where
  nombre : String
  email : String
  telefono : String
  metodo_notif : String
  deriving DecidableEq, Repr

/-- `Usuario.__init__`: stores the fields, uppercasing `metodo_notif`. -/
def Usuario.init (nombre email telefono metodo_notif : String) : Usuario :=
  { nombre := nombre, email := email, telefono := telefono,
    metodo_notif := mayusculas metodo_notif }

/-- `Usuario.actualizar(mensaje)`: resolves the user's preferred channel via
the factory; on success computes the destination from the channel and sends
`¡Hola <nombre>! <mensaje>`; a `ValueError` from the factory is caught and
downgraded to the warning `Error al notificar a <nombre>: <e>`. -/
def Usuario.actualizar (u : Usuario) (mensaje : String) : List Evento :=
  match crearNotificacion u.metodo_notif with
  | .ok notificacion_obj =>
      let destino :=
        if u.metodo_notif = "EMAIL" then u.email
        else if u.metodo_notif = "SMS" then u.telefono
        else if u.metodo_notif = "PUSH" then u.nombre
        else ""
      notificacion_obj.enviar ("¡Hola " ++ u.nombre ++ "! " ++ mensaje) destino
  | .error e => [Evento.errorNotificar u.nombre e]

/-- Class `NotificacionSystem`: its state is the list `_observadores` of
observer references (Python object identities, modelled as `Nat`). -/
structure NotificacionSystem where
  observadores : List Nat
  deriving DecidableEq, Repr

/-- `NotificacionSystem.__init__`: the observer list starts empty. -/
def NotificacionSystem.init : NotificacionSystem := { observadores := [] }

/-- `agregarObservador(observador)`: appends and prints `Suscripción exitosa`
only when the observer is not already present; when it is present, nothing
happens and nothing is printed. -/
def NotificacionSystem.agregarObservador (s : NotificacionSystem)
    (observador : Nat) : NotificacionSystem × List Evento :=
  if observador ∈ s.observadores then (s, [])
  else ({ observadores := s.observadores ++ [observador] },
        [Evento.suscripcionExitosa observador])

/-- `eliminarObservador(observador)`: `list.remove` deletes the first
occurrence and `Baja exitosa` is printed; the `ValueError` raised when the
observer is absent is caught and turned into the `no estaba suscrito`
warning, leaving the list unchanged. -/
def NotificacionSystem.eliminarObservador (s : NotificacionSystem)
    (observador : Nat) : NotificacionSystem × List Evento :=
  if observador ∈ s.observadores then
    ({ observadores := s.observadores.erase observador },
     [Evento.bajaExitosa observador])
  else (s, [Evento.noSuscrito observador])

/-- The `for observador in self._observadores` loop of
`notificarObservadores`: calls `actualizar(mensaje)` on each observer in
list order, one at a time; each loop iteration is recorded as the pair
(observer reference, events its `actualizar` produced). -/
def notificarLoop (env : Nat → Usuario) (mensaje : String) :
    List Nat → List (Nat × List Evento)
  | [] => []
  | o :: rest => (o, (env o).actualizar mensaje) :: notificarLoop env mensaje rest

/-- `notificarObservadores(mensaje)`: if the observer list is empty, prints
`No hay usuarios suscritos` and returns without dispatching; otherwise runs
the loop.  The method never assigns to `self._observadores`, so the
resulting state is returned alongside the event trace. -/
def NotificacionSystem.notificarObservadores (env : Nat → Usuario)
    (s : NotificacionSystem) (mensaje : String) :
    NotificacionSystem × List Evento :=
  if s.observadores.isEmpty then (s, [Evento.sinUsuarios])
  else (s, (notificarLoop env mensaje s.observadores).flatMap Prod.snd)

/-!
The spec documents the repository as two near-duplicate files (~316 lines);
only one (`notificacion.py`, the single-channel variant above) is under
`src/`.  The other variant — set-based membership deduplicated by email
identity, whose subscriber records each received message as its last-seen
message — is missing from `src/`, so it is modelled from the spec below.
-/

/-- Modelled from the spec: the missing variant file's subscriber state.
Membership is keyed by email identity (§3), and the only mutable subscriber
state is the last message seen (§3, §4.2), held here as a map from
subscriber email to its last-seen message. -/
structure SistemaV1 where
  /-- Emails of the currently subscribed subscribers. -/
  miembros : List String
  /-- Each subscriber's recorded last-seen message (also kept for
  subscribers no longer — or never — subscribed). -/
  ultimoVisto : String → Option String

/-- Modelled from the spec (§4.2): `Subscriber.receive(message)` "records
`message` as the subscriber's last-seen message"; updates the last-seen map
at the receiving subscriber's email. -/
def recibirV1 (mensaje : String) (visto : String → Option String)
    (e : String) : String → Option String :=
  fun e' => if e' = e then some mensaje else visto e'

/-- Modelled from the spec (§4.3): the body of `broadcast` "iterates the
current membership snapshot and invokes `receive(message)` on each,
synchronously, one at a time". -/
def difundirLoop (mensaje : String) :
    List String → (String → Option String) → (String → Option String)
  | [], visto => visto
  | e :: resto, visto => difundirLoop mensaje resto (recibirV1 mensaje visto e)

/-- Modelled from the spec (§4.3): `Hub.broadcast(message)` runs the receive
loop over the membership snapshot; membership itself is not mutated. -/
def difundirV1 (s : SistemaV1) (mensaje : String) : SistemaV1 :=
  { miembros := s.miembros,
    ultimoVisto := difundirLoop mensaje s.miembros s.ultimoVisto }

/-- Modelled from the spec (§4.3): `remove(subscriber)` removes the
subscriber (identified by email, with set semantics) if present, and is a
no-op if absent; the removed subscriber's last-seen record is untouched. -/
def eliminarV1 (s : SistemaV1) (e : String) : SistemaV1 :=
  { miembros := s.miembros.filter (fun e' => e' ≠ e),
    ultimoVisto := s.ultimoVisto }

/-- One driver operation against the `NotificacionSystem` API. -/
inductive Op where
  | agregar (o : Nat)
  | eliminar (o : Nat)
  | notificar (m : String)
  deriving DecidableEq, Repr

/-- Apply one operation, keeping the resulting hub state. -/
def aplicarOp (env : Nat → Usuario) (s : NotificacionSystem) : Op → NotificacionSystem
  | .agregar o => (s.agregarObservador o).fst
  | .eliminar o => (s.eliminarObservador o).fst
  | .notificar m => (s.notificarObservadores env m).fst

/-- Run a sequence of operations starting from the empty state built by
`NotificacionSystem.__init__`. -/
def ejecutar (env : Nat → Usuario) (ops : List Op) : NotificacionSystem :=
  ops.foldl (aplicarOp env) NotificacionSystem.init

/-! ### Helper lemmas -/

theorem crearNotificacion_error (t : String)
    (h : mayusculas t ∉ (["EMAIL", "SMS", "PUSH"] : List String)) :
    crearNotificacion t =
      .error ("Tipo de notificación desconocido: " ++ mayusculas t) := by
  simp only [List.mem_cons, List.not_mem_nil, or_false, not_or] at h
  obtain ⟨h1, h2, h3⟩ := h
  simp only [crearNotificacion]
  rw [if_neg h1, if_neg h2, if_neg h3]

theorem crearNotificacion_congr (t₁ t₂ : String)
    (h : mayusculas t₁ = mayusculas t₂) :
    crearNotificacion t₁ = crearNotificacion t₂ := by
  simp only [crearNotificacion, h]

theorem notificarLoop_fst (env : Nat → Usuario) (m : String) (l : List Nat) :
    (notificarLoop env m l).map Prod.fst = l := by
  induction l with
  | nil => rfl
  | cons o rest ih => simp [notificarLoop, ih]

theorem notificar_fst_eq (env : Nat → Usuario) (s : NotificacionSystem)
    (m : String) : (s.notificarObservadores env m).fst = s := by
  unfold NotificacionSystem.notificarObservadores
  split <;> rfl

theorem agregar_mem (s : NotificacionSystem) (o : Nat) :
    o ∈ (s.agregarObservador o).fst.observadores := by
  unfold NotificacionSystem.agregarObservador
  by_cases h : o ∈ s.observadores
  · rw [if_pos h]; exact h
  · rw [if_neg h]; simp

theorem agregar_presente (s : NotificacionSystem) (o : Nat)
    (h : o ∈ s.observadores) : s.agregarObservador o = (s, []) := by
  simp [NotificacionSystem.agregarObservador, h]

theorem agregar_ausente (s : NotificacionSystem) (o : Nat)
    (h : o ∉ s.observadores) :
    s.agregarObservador o =
      ({ observadores := s.observadores ++ [o] },
       [Evento.suscripcionExitosa o]) := by
  simp [NotificacionSystem.agregarObservador, h]

theorem agregar_nodup (s : NotificacionSystem) (o : Nat)
    (h : s.observadores.Nodup) :
    (s.agregarObservador o).fst.observadores.Nodup := by
  unfold NotificacionSystem.agregarObservador
  by_cases hm : o ∈ s.observadores
  · rw [if_pos hm]; exact h
  · rw [if_neg hm]
    show (s.observadores ++ [o]).Nodup
    rw [List.nodup_append]
    exact ⟨h, List.nodup_singleton o, List.disjoint_singleton.mpr hm⟩

theorem eliminar_nodup (s : NotificacionSystem) (o : Nat)
    (h : s.observadores.Nodup) :
    (s.eliminarObservador o).fst.observadores.Nodup := by
  unfold NotificacionSystem.eliminarObservador
  by_cases hm : o ∈ s.observadores
  · rw [if_pos hm]; exact h.erase o
  · rw [if_neg hm]; exact h

theorem aplicarOp_nodup (env : Nat → Usuario) (s : NotificacionSystem)
    (op : Op) (h : s.observadores.Nodup) :
    (aplicarOp env s op).observadores.Nodup := by
  cases op with
  | agregar o => exact agregar_nodup s o h
  | eliminar o => exact eliminar_nodup s o h
  | notificar m =>
      show ((s.notificarObservadores env m).fst).observadores.Nodup
      rw [notificar_fst_eq]
      exact h

theorem ejecutar_nodup_aux (env : Nat → Usuario) (ops : List Op) :
    ∀ s : NotificacionSystem, s.observadores.Nodup →
      (ops.foldl (aplicarOp env) s).observadores.Nodup := by
  induction ops with
  | nil => intro s h; exact h
  | cons op rest ih => intro s h; exact ih _ (aplicarOp_nodup env s op h)

theorem difundirLoop_not_mem (m : String) (l : List String) :
    ∀ (visto : String → Option String) (e : String), e ∉ l →
      difundirLoop m l visto e = visto e := by
  induction l with
  | nil => intro visto e h; rfl
  | cons a resto ih =>
      intro visto e h
      simp only [List.mem_cons, not_or] at h
      simp only [difundirLoop]
      rw [ih _ e h.2]
      simp only [recibirV1, if_neg h.1]

theorem difundirLoop_mem (m : String) (l : List String) :
    ∀ (visto : String → Option String) (e : String), e ∈ l →
      difundirLoop m l visto e = some m := by
  induction l with
  | nil => intro _ e h; cases h
  | cons a resto ih =>
      intro visto e h
      by_cases hr : e ∈ resto
      · simp only [difundirLoop]; exact ih _ e hr
      · have hea : e = a := by
          rcases List.mem_cons.mp h with h1 | h2
          · exact h1
          · exact absurd h2 hr
        simp only [difundirLoop]
        rw [difundirLoop_not_mem m resto _ e hr]
        simp only [recibirV1, if_pos hea]

/-! ### Claim theorems -/

/-- C1: `receive(m)` records `m` as the receiving subscriber's last-seen
message; after `broadcast(m)` every currently subscribed subscriber's
last-seen message equals `m`; a subscriber not subscribed at broadcast time
— in particular one removed just before the broadcast — has its last-seen
message unchanged by that broadcast.  (Settled against the spec-modelled
variant `SistemaV1`: the variant file that records last-seen messages is
not under `src/`.) -/
theorem c1_difusion_ultimoVisto (s : SistemaV1) (m e : String) :
    (∀ visto : String → Option String, recibirV1 m visto e e = some m) ∧
    (e ∈ s.miembros → (difundirV1 s m).ultimoVisto e = some m) ∧
    (e ∉ s.miembros → (difundirV1 s m).ultimoVisto e = s.ultimoVisto e) ∧
    ((difundirV1 (eliminarV1 s e) m).ultimoVisto e = s.ultimoVisto e) := by
  refine ⟨?_, ?_, ?_, ?_⟩
  · intro visto; simp [recibirV1]
  · intro h; exact difundirLoop_mem m s.miembros s.ultimoVisto e h
  · intro h; exact difundirLoop_not_mem m s.miembros s.ultimoVisto e h
  · have hnm : e ∉ (eliminarV1 s e).miembros := by
      simp [eliminarV1, List.mem_filter]
    exact difundirLoop_not_mem m (eliminarV1 s e).miembros s.ultimoVisto e hnm

/-- Witness for C1 at a concrete two-member system. -/
theorem c1_difusion_ultimoVisto_witness :
    (difundirV1 ⟨["ana@x", "beto@x"], fun _ => none⟩ "v1").ultimoVisto "ana@x"
      = some "v1" ∧
    (difundirV1 (eliminarV1 ⟨["ana@x", "beto@x"],
        fun e => if e = "beto@x" then some "v0" else none⟩ "beto@x")
      "v1").ultimoVisto "beto@x" = some "v0" := by
  constructor
  · exact (c1_difusion_ultimoVisto ⟨["ana@x", "beto@x"], fun _ => none⟩
      "v1" "ana@x").2.1 (by decide)
  · have h := (c1_difusion_ultimoVisto ⟨["ana@x", "beto@x"],
      fun e => if e = "beto@x" then some "v0" else none⟩ "v1" "beto@x").2.2.2
    rw [h]
    simp

/-- C2: when a subscriber's preferred channel tag uppercases to something
outside EMAIL/SMS/PUSH, `actualizar` catches the factory's `ValueError` and
produces exactly one warning line naming that subscriber (no exception
escapes: `actualizar` is a total function), and the broadcast loop still
invokes every member of the hub, so delivery to the other subscribers is
unaffected. -/
theorem c2_mala_preferencia_aislada (env : Nat → Usuario)
    (s : NotificacionSystem) (m : String) (o : Nat)
    (h : mayusculas (env o).metodo_notif ∉ (["EMAIL", "SMS", "PUSH"] : List String)) :
    (env o).actualizar m =
      [Evento.errorNotificar (env o).nombre
        ("Tipo de notificación desconocido: " ++ mayusculas (env o).metodo_notif)] ∧
    (notificarLoop env m s.observadores).map Prod.fst = s.observadores := by
  constructor
  · unfold Usuario.actualizar
    rw [crearNotificacion_error _ h]
  · exact notificarLoop_fst env m s.observadores

/-- Witness for C2: a subscriber preferring "whatsapp" in a two-member hub. -/
theorem c2_mala_preferencia_aislada_witness :
    (Usuario.init "Carlos" "c@x" "555-3" "whatsapp").actualizar "hola" =
      [Evento.errorNotificar "Carlos"
        "Tipo de notificación desconocido: WHATSAPP"] ∧
    (notificarLoop (fun _ => Usuario.init "Carlos" "c@x" "555-3" "whatsapp")
        "hola" [0, 1]).map Prod.fst = [0, 1] := by
  have h := c2_mala_preferencia_aislada
    (fun _ => Usuario.init "Carlos" "c@x" "555-3" "whatsapp")
    ⟨[0, 1]⟩ "hola" 0 (by decide)
  exact ⟨h.1.trans (by decide), h.2⟩

/-- C3: for any tag whose uppercase form is not EMAIL, SMS or PUSH, the
factory fails with a `ValueError` whose message carries the offending tag
(in the uppercased form the factory normalised it to); it never returns a
sender. -/
theorem c3_etiqueta_desconocida (t : String)
    (h : mayusculas t ∉ (["EMAIL", "SMS", "PUSH"] : List String)) :
    crearNotificacion t =
      .error ("Tipo de notificación desconocido: " ++ mayusculas t) ∧
    ∀ n : INotificacion, crearNotificacion t ≠ .ok n := by
  refine ⟨crearNotificacion_error t h, ?_⟩
  intro n hn
  rw [crearNotificacion_error t h] at hn
  exact Except.noConfusion hn

/-- Witness for C3 at the tag "whatsapp". -/
theorem c3_etiqueta_desconocida_witness :
    crearNotificacion "whatsapp" =
      .error "Tipo de notificación desconocido: WHATSAPP" :=
  ((c3_etiqueta_desconocida "whatsapp" (by decide)).1).trans rfl

/-- C4: for any tag whose uppercase form is EMAIL, SMS or PUSH, the factory
succeeds, depends only on the uppercased tag (case-insensitivity), and
returns the sender of exactly that channel, whose `enviar` emits exactly
one delivery event tagged with that channel. -/
theorem c4_etiquetas_validas (t : String)
    (h : mayusculas t ∈ (["EMAIL", "SMS", "PUSH"] : List String)) :
    (∀ t' : String, mayusculas t' = mayusculas t →
      crearNotificacion t' = crearNotificacion t) ∧
    ∃ n : INotificacion, crearNotificacion t = .ok n ∧
      n.canal = mayusculas t ∧
      ∀ m d : String, n.enviar m d = [Evento.envio (mayusculas t) d m] := by
  refine ⟨fun t' h' => crearNotificacion_congr t' t h', ?_⟩
  simp only [List.mem_cons, List.not_mem_nil, or_false] at h
  rcases h with h | h | h
  · refine ⟨.emailNotificacion, ?_, ?_, ?_⟩
    · simp [crearNotificacion, h]
    · simp [INotificacion.canal, h]
    · intro m d; simp [INotificacion.enviar, INotificacion.canal, h]
  · refine ⟨.smsNotificacion, ?_, ?_, ?_⟩
    · simp [crearNotificacion, h]
    · simp [INotificacion.canal, h]
    · intro m d; simp [INotificacion.enviar, INotificacion.canal, h]
  · refine ⟨.pushNotificacion, ?_, ?_, ?_⟩
    · simp [crearNotificacion, h]
    · simp [INotificacion.canal, h]
    · intro m d; simp [INotificacion.enviar, INotificacion.canal, h]

/-- Witness for C4 at the mixed-case tag "Email". -/
theorem c4_etiquetas_validas_witness :
    mayusculas "Email" ∈ (["EMAIL", "SMS", "PUSH"] : List String) ∧
    ((∀ t' : String, mayusculas t' = mayusculas "Email" →
        crearNotificacion t' = crearNotificacion "Email") ∧
      ∃ n : INotificacion, crearNotificacion "Email" = .ok n ∧
        n.canal = mayusculas "Email" ∧
        ∀ m d : String, n.enviar m d = [Evento.envio (mayusculas "Email") d m]) :=
  ⟨by decide, c4_etiquetas_validas "Email" (by decide)⟩

/-- C5 counterexample: starting from the empty hub, after `add(s)` a second
`add(s)` emits no log line at all — the source's already-present branch
prints nothing — refuting the claimed "informational log line
distinguishing added from already subscribed". -/
theorem c5_agregar_contraejemplo :
    ((NotificacionSystem.init.agregarObservador 0).fst.agregarObservador 0).snd
      = [] := by
  decide

/-- C5 (amended): `agregarObservador` is idempotent — a second add of the
same observer leaves the whole hub state unchanged, and it emits no event
at all (a silent no-op, not a logged one); a first add from the empty state
yields membership of size 1, not 2. -/
theorem c5_agregar_idempotente (s : NotificacionSystem) (o : Nat) :
    ((s.agregarObservador o).fst.agregarObservador o).fst
      = (s.agregarObservador o).fst ∧
    ((s.agregarObservador o).fst.agregarObservador o).snd = [] ∧
    (NotificacionSystem.init.agregarObservador o).fst.observadores.length = 1 := by
  have hmem : o ∈ (s.agregarObservador o).fst.observadores := agregar_mem s o
  refine ⟨?_, ?_, ?_⟩
  · rw [agregar_presente _ o hmem]
  · rw [agregar_presente _ o hmem]
  · rw [agregar_ausente NotificacionSystem.init o (by simp [NotificacionSystem.init])]
    rfl

/-- C6: removing an absent subscriber leaves the hub unchanged and emits
only the informational `no estaba suscrito` line (the `ValueError` from
`list.remove` is caught, so nothing is raised — the function is total);
removing a present subscriber erases it from the list, and under the
no-duplicates invariant the subscriber is gone afterwards. -/
theorem c6_eliminar_seguro (s : NotificacionSystem) (o : Nat) :
    (o ∉ s.observadores →
      s.eliminarObservador o = (s, [Evento.noSuscrito o])) ∧
    (o ∈ s.observadores →
      (s.eliminarObservador o).fst.observadores = s.observadores.erase o ∧
      (s.observadores.Nodup →
        o ∉ (s.eliminarObservador o).fst.observadores)) := by
  constructor
  · intro h; simp [NotificacionSystem.eliminarObservador, h]
  · intro h
    constructor
    · simp [NotificacionSystem.eliminarObservador, h]
    · intro hd
      simp only [NotificacionSystem.eliminarObservador, if_pos h]
      intro hmem
      have hmem' : o ∈ s.observadores.erase o := hmem
      rcases (hd.mem_erase_iff).mp hmem' with ⟨hne, _⟩
      exact hne rfl

/-- Witness for C6 on the one-member hub `[5]`. -/
theorem c6_eliminar_seguro_witness :
    (NotificacionSystem.mk [5]).eliminarObservador 7
      = (⟨[5]⟩, [Evento.noSuscrito 7]) ∧
    ((NotificacionSystem.mk [5]).eliminarObservador 5).fst.observadores
      = ([5] : List Nat).erase 5 ∧
    5 ∉ ((NotificacionSystem.mk [5]).eliminarObservador 5).fst.observadores :=
  ⟨(c6_eliminar_seguro ⟨[5]⟩ 7).1 (by decide),
   ((c6_eliminar_seguro ⟨[5]⟩ 5).2 (by decide)).1,
   ((c6_eliminar_seguro ⟨[5]⟩ 5).2 (by decide)).2 (by decide)⟩

/-- C7: the broadcast loop invokes `actualizar` once per list entry,
synchronously and one at a time, in list (= insertion) order — the sequence
of invoked observers equals the membership list — and under the
no-duplicates invariant each member is invoked exactly once; with empty
membership only the informational line is produced and no `actualizar`
runs. -/
theorem c7_difusion_orden (env : Nat → Usuario) (s : NotificacionSystem)
    (m : String) :
    ((notificarLoop env m s.observadores).map Prod.fst = s.observadores) ∧
    (s.observadores.Nodup → ∀ o ∈ s.observadores,
      ((notificarLoop env m s.observadores).map Prod.fst).count o = 1) ∧
    (s.observadores = [] →
      s.notificarObservadores env m = (s, [Evento.sinUsuarios])) := by
  refine ⟨notificarLoop_fst env m s.observadores, ?_, ?_⟩
  · intro hd o ho
    rw [notificarLoop_fst]
    exact List.count_eq_one_of_mem hd ho
  · intro he
    simp [NotificacionSystem.notificarObservadores, he]

/-- Witness for C7 on the two-member hub `[3, 4]` and the empty hub. -/
theorem c7_difusion_orden_witness :
    ((notificarLoop (fun _ => Usuario.init "Ana" "a@x" "1" "EMAIL") "m1"
        (NotificacionSystem.mk [3, 4]).observadores).map Prod.fst = [3, 4]) ∧
    (((notificarLoop (fun _ => Usuario.init "Ana" "a@x" "1" "EMAIL") "m1"
        (NotificacionSystem.mk [3, 4]).observadores).map Prod.fst).count 3 = 1) ∧
    ((NotificacionSystem.mk []).notificarObservadores
        (fun _ => Usuario.init "Ana" "a@x" "1" "EMAIL") "m1"
      = (NotificacionSystem.mk [], [Evento.sinUsuarios])) :=
  ⟨(c7_difusion_orden (fun _ => Usuario.init "Ana" "a@x" "1" "EMAIL")
      ⟨[3, 4]⟩ "m1").1,
   (c7_difusion_orden (fun _ => Usuario.init "Ana" "a@x" "1" "EMAIL")
      ⟨[3, 4]⟩ "m1").2.1 (by decide) 3 (by decide),
   (c7_difusion_orden (fun _ => Usuario.init "Ana" "a@x" "1" "EMAIL")
      ⟨[]⟩ "m1").2.2 rfl⟩

/-- C8: from the empty initial state, every sequence of add / remove /
broadcast operations leaves the observer list free of duplicates. -/
theorem c8_invariante_sin_duplicados (env : Nat → Usuario) (ops : List Op) :
    (ejecutar env ops).observadores.Nodup :=
  ejecutar_nodup_aux env ops NotificacionSystem.init List.nodup_nil

/-- C9: broadcasting never mutates membership — the observer list (same
elements, same order) after `notificarObservadores` equals the one
before. -/
theorem c9_difusion_preserva_miembros (env : Nat → Usuario)
    (s : NotificacionSystem) (m : String) :
    (s.notificarObservadores env m).fst.observadores = s.observadores := by
  rw [notificar_fst_eq]

/-- C10: hub deduplication is by object identity (reference), never by
field values: two distinct references `o₁ ≠ o₂` are both admitted even when
the `Usuario` records they refer to are structurally equal (`Usuario`
defines no structural `__eq__`, so the membership test cannot compare
fields), growing membership by two. -/
theorem c10_identidad_no_estructural (env : Nat → Usuario)
    (s : NotificacionSystem) (o₁ o₂ : Nat) (higuales : env o₁ = env o₂)
    (hdist : o₁ ≠ o₂) (h1 : o₁ ∉ s.observadores) (h2 : o₂ ∉ s.observadores) :
    ((s.agregarObservador o₁).fst.agregarObservador o₂).fst.observadores
      = s.observadores ++ [o₁, o₂] := by
  have e1 : (s.agregarObservador o₁).fst.observadores
      = s.observadores ++ [o₁] := by
    rw [agregar_ausente s o₁ h1]
  have h2' : o₂ ∉ (s.agregarObservador o₁).fst.observadores := by
    rw [e1]
    intro hc
    rcases List.mem_append.mp hc with hc | hc
    · exact h2 hc
    · exact hdist (List.mem_singleton.mp hc).symm
  have e2 : ((s.agregarObservador o₁).fst.agregarObservador o₂).fst.observadores
      = (s.agregarObservador o₁).fst.observadores ++ [o₂] := by
    rw [agregar_ausente _ o₂ h2']
  rw [e2, e1, List.append_assoc]
  rfl

/-- Witness for C10: references 0 and 1 both hold structurally identical
`Usuario` data, yet both enter the membership list. -/
theorem c10_identidad_no_estructural_witness :
    (fun _ : Nat => Usuario.init "Ana" "ana@x" "1" "EMAIL") 0 =
      (fun _ : Nat => Usuario.init "Ana" "ana@x" "1" "EMAIL") 1 ∧
    ((NotificacionSystem.init.agregarObservador 0).fst.agregarObservador
        1).fst.observadores
      = NotificacionSystem.init.observadores ++ [0, 1] :=
  ⟨rfl, c10_identidad_no_estructural
    (fun _ => Usuario.init "Ana" "ana@x" "1" "EMAIL")
    NotificacionSystem.init 0 1 rfl (by decide) (by decide) (by decide)⟩
